import Mathlib

/-!
Verification of the Waste & Recommendation Analytics Engine and the
Recipe Matching Engine of the bubtt-chatbot-backend repository, as a
shallow embedding in Lean 4.

Conventions of the embedding:
* JavaScript numbers are modelled as exact rationals (`ℚ`); where a
  computation can produce the JavaScript value `NaN` (division `0 / 0`,
  arithmetic on a missing field), the value is modelled as `Option ℚ`
  (`none` = `NaN`), with `NaN`-propagating operations.
* `Math.round x` is `⌊x + 1/2⌋` (JavaScript rounds half toward +∞),
  `Math.ceil` is `⌈·⌉`, and `parseFloat(x.toFixed(2))` is rounding to two
  decimal places with the same tie rule.
* Dates are modelled as integer timestamps in milliseconds; one day is
  86400000 ms, exactly as the source divides.
* JavaScript strings are Lean `String`s; `toLowerCase` maps
  `Char.toLower` over the characters and `String.prototype.includes` is
  an explicit substring test on the character lists.
* A missing (`undefined`) string field is modelled as `""`, matching the
  `a || b || ""` fall-through idiom of the source, which treats `""` and
  `undefined` alike (both falsy).
-/

/-- JavaScript `Math.round`: round half toward positive infinity. -/
def jsRound (q : ℚ) : ℤ := ⌊q + 1/2⌋

/-- JavaScript `parseFloat(x.toFixed(2))`: round to 2 decimal places. -/
def round2 (q : ℚ) : ℚ := (jsRound (q * 100) : ℚ) / 100

/-- Addition on JavaScript numbers where `none` models `NaN`:
`NaN` propagates through `+`. -/
def nanAdd : Option ℚ → Option ℚ → Option ℚ
  | some a, some b => some (a + b)
  | _, _ => none

/-- Multiplication on JavaScript numbers where `none` models `NaN`. -/
def nanMul : Option ℚ → Option ℚ → Option ℚ
  | some a, some b => some (a * b)
  | _, _ => none

/-- Does the first character list start with the second? -/
def headMatches : List Char → List Char → Bool
  | _, [] => true
  | [], _ :: _ => false
  | a :: as, b :: bs => a == b && headMatches as bs

/-- Does the second list occur as a contiguous run inside the first?
`hasSubList pat l` is `l` contains `pat`. -/
def hasSubList (pat : List Char) : List Char → Bool
  | [] => headMatches [] pat
  | c :: t => headMatches (c :: t) pat || hasSubList pat t

/-- JavaScript `s.includes(sub)`: substring containment. -/
def strIncludes (s sub : String) : Bool := hasSubList sub.data s.data

/-- JavaScript `s.toLowerCase()` on the ASCII names this program uses. -/
def strLower (s : String) : String := ⟨s.data.map Char.toLower⟩

/-! ## Data model (src/services/analyticsService.js) -/

/-- One historical consumption event.  The source reads `name`, `item`
(an alternative spelling of the name some records carry), `price` and
`status`; an absent string field is modelled as `""`. -/
structure LogEntry where
  name : String := ""
  item : String := ""
  price : ℚ := 0
  status : String := ""
deriving DecidableEq

/-- A currently-held inventory item.  `expiry` is a millisecond
timestamp (`new Date(item.expiry)`); `daysLeft` is the stored field the
meal planner reads (`item.daysLeft`). -/
structure InventoryItem where
  name : String := ""
  item : String := ""
  price : ℚ := 0
  quantity : ℚ := 0
  expiry : ℤ := 0
  daysLeft : ℤ := 0
deriving DecidableEq

/-- The `item.name || item.item` fall-through of the source (an absent
field and `""` are both falsy). -/
def itemAltName (name alt : String) : String :=
  if name ≠ "" then name else alt

structure RiskItem where
  name : String
  daysLeft : ℤ
  riskPrice : ℚ
deriving DecidableEq

structure WasteMetrics where
  totalWastedMoney : ℚ
  riskValue : ℚ
  riskItems : List RiskItem
  riskItemNames : List String
deriving DecidableEq

/-- Days until expiry relative to the reference date:
`Math.ceil((expiry - today) / (1000*60*60*24))`. -/
def daysLeftOf (it : InventoryItem) (today : ℤ) : ℤ :=
  ⌈((it.expiry - today : ℤ) : ℚ) / 86400000⌉

/-- `calculateWasteMetrics(history, inventory, todayString)` of
src/services/analyticsService.js: historical waste is the sum of `price`
over `wasted` entries; an inventory item with `0 < daysLeft ≤ 2`
contributes `price * quantity` to the risk value and appears as a risk
item; both monetary totals go through `toFixed(2)`. -/
def calculateWasteMetrics (history : List LogEntry) (inventory : List InventoryItem)
    (today : ℤ) : WasteMetrics :=
  let totalWastedMoney : ℚ :=
    (history.filter (fun e => e.status == "wasted")).foldl (fun s e => s + e.price) 0
  let risk : ℚ × List RiskItem :=
    inventory.foldl (fun acc it =>
      let dl := daysLeftOf it today
      if dl ≤ 2 ∧ 0 < dl then
        (acc.1 + it.price * it.quantity,
         acc.2 ++ [{ name := itemAltName it.name it.item, daysLeft := dl,
                     riskPrice := it.price * it.quantity }])
      else acc) (0, [])
  { totalWastedMoney := round2 totalWastedMoney
    riskValue := round2 risk.1
    riskItems := risk.2
    riskItemNames := risk.2.map (fun r => r.name) }

structure SDGMetrics where
  sdgScore : ℤ
  successRate : ℤ
  wastedCount : ℕ
  consumedCount : ℕ
  totalItems : ℕ
deriving DecidableEq

/-- `calculateSDGScore(history)` of src/services/analyticsService.js. -/
def calculateSDGScore (history : List LogEntry) : SDGMetrics :=
  if history.isEmpty then
    { sdgScore := 50, successRate := 0, wastedCount := 0, consumedCount := 0, totalItems := 0 }
  else
    let wastedCount := (history.filter (fun e => e.status == "wasted")).length
    let consumedCount := (history.filter (fun e => e.status == "consumed")).length
    let totalItems := history.length
    let successRate := jsRound ((consumedCount : ℚ) / (totalItems : ℚ) * 100)
    { sdgScore := successRate, successRate := successRate, wastedCount := wastedCount,
      consumedCount := consumedCount, totalItems := totalItems }

structure NutritionCategories where
  fruits : ℕ
  vegetables : ℕ
  proteins : ℕ
  grains : ℕ
  dairy : ℕ
deriving DecidableEq

/-- The nutrition score is `Option ℤ` because the source can produce
`NaN`: with a non-empty history and no consumed entry,
`maxPerCategory = 0` and each category score is `0 / 0`. -/
structure NutritionMetrics where
  nutritionScore : Option ℤ
  categories : NutritionCategories
  totalConsumed : ℕ
  suggestions : List String
deriving DecidableEq

def fruitKeywords : List String :=
  ["apple", "orange", "banana", "berries", "mango", "grape"]

def vegKeywords : List String :=
  ["carrot", "lettuce", "broccoli", "spinach", "tomato", "cucumber"]

def proteinKeywords : List String :=
  ["egg", "chicken", "fish", "meat", "tofu", "bean", "lentil"]

def grainKeywords : List String :=
  ["bread", "rice", "wheat", "oat", "pasta", "cereal"]

def dairyKeywords : List String :=
  ["milk", "cheese", "yogurt", "butter"]

/-- The lower-cased `item.name || item.item || ""` of a log entry. -/
def entryNameLower (e : LogEntry) : String := strLower (itemAltName e.name e.item)

/-- Does the entry's lower-cased name contain one of the keywords? -/
def matchesKeyword (ks : List String) (e : LogEntry) : Bool :=
  ks.any (fun k => strIncludes (entryNameLower e) k)

/-- The body of the classification loop of `calculateNutritionScore`:
the five keyword sets are tested in a fixed order, first match wins. -/
def classifyStep (c : NutritionCategories) (e : LogEntry) : NutritionCategories :=
  if matchesKeyword fruitKeywords e then { c with fruits := c.fruits + 1 }
  else if matchesKeyword vegKeywords e then { c with vegetables := c.vegetables + 1 }
  else if matchesKeyword proteinKeywords e then { c with proteins := c.proteins + 1 }
  else if matchesKeyword grainKeywords e then { c with grains := c.grains + 1 }
  else if matchesKeyword dairyKeywords e then { c with dairy := c.dairy + 1 }
  else c

/-- One category's score `Math.min(count / maxPerCategory * 100, 100)`.
With `maxPerCategory = 0` the JavaScript source computes `0 / 0 = NaN`
(modelled `none`) when the count is 0, and `Math.min(Infinity, 100) =
100` otherwise. -/
def categoryScore (count mpc : ℕ) : Option ℚ :=
  if mpc = 0 then
    if count = 0 then none else some 100
  else
    some (min ((count : ℚ) / (mpc : ℚ) * 100) 100)

/-- `calculateNutritionScore(history)` of src/services/analyticsService.js. -/
def calculateNutritionScore (history : List LogEntry) : NutritionMetrics :=
  if history.isEmpty then
    { nutritionScore := some 50
      categories := ⟨0, 0, 0, 0, 0⟩
      totalConsumed := 0
      suggestions := ["Add more vegetables", "Include proteins", "Eat whole grains"] }
  else
    let consumedItems := history.filter (fun e => e.status == "consumed")
    let categories := consumedItems.foldl classifyStep ⟨0, 0, 0, 0, 0⟩
    let maxPerCategory := (consumedItems.length + 4) / 5
    let scoreQ : Option ℚ :=
      [categories.fruits, categories.vegetables, categories.proteins,
       categories.grains, categories.dairy].foldl
        (fun s c => nanAdd s ((categoryScore c maxPerCategory).map (fun q => q / 5)))
        (some 0)
    let suggestions : List String :=
      (if (categories.vegetables : ℚ) < (maxPerCategory : ℚ) / 2 then
        ["Boost vegetables to 25% of meals"] else []) ++
      (if (categories.fruits : ℚ) < (maxPerCategory : ℚ) / 2 then
        ["Add more fruits for vitamins"] else []) ++
      (if (categories.proteins : ℚ) < (maxPerCategory : ℚ) / 2 then
        ["Include proteins in every meal"] else []) ++
      (if (categories.grains : ℚ) < (maxPerCategory : ℚ) / 2 then
        ["Choose whole grains"] else []) ++
      (if (categories.dairy : ℚ) < (maxPerCategory : ℚ) / 3 then
        ["Add dairy for calcium"] else [])
    { nutritionScore := scoreQ.map jsRound
      categories := categories
      totalConsumed := consumedItems.length
      suggestions := if 0 < suggestions.length then suggestions
                     else ["Great variety! Keep it up!"] }

structure WeeklyInsights where
  weeklyChange : ℤ
  wasteReduction : ℤ
  insights : List String
  previousScore : ℤ
  currentScore : ℤ
deriving DecidableEq

def improvedMsg (n : ℤ) : String :=
  "🎉 Great job! Your score improved by " ++ toString n ++ "% this week!"

def droppedMsg (n : ℕ) : String :=
  "⚠️ Your score dropped by " ++ toString n ++ "%. Let\x27s improve!"

def stableMsg : String := "📊 Your score remained stable this week."

def wastedFewerMsg (n : ℤ) : String :=
  "✅ You wasted " ++ toString n ++ " fewer items than last week!"

def wastedMoreMsg (n : ℕ) : String :=
  "❌ You wasted " ++ toString n ++ " more items. Let\x27s focus on reducing waste."

def consumedMoreMsg (n : ℕ) : String :=
  "💪 You consumed " ++ toString n ++ " more items this week!"

/-- `generateWeeklyInsights(history, currentMetrics)` of
src/services/analyticsService.js: the earlier half of the history
(`slice(0, ceil(length / 2))`) is the baseline period.  (The source also
computes the later half but never uses it.) -/
def generateWeeklyInsights (history : List LogEntry) (currentMetrics : SDGMetrics) :
    WeeklyInsights :=
  let twoWeeksAgo := history.take ((history.length + 1) / 2)
  let prevMetrics := calculateSDGScore twoWeeksAgo
  let scoreImprovement := currentMetrics.sdgScore - prevMetrics.sdgScore
  let prevWasted := (twoWeeksAgo.filter (fun e => e.status == "wasted")).length
  let wasteReduction : ℤ := (prevWasted : ℤ) - (currentMetrics.wastedCount : ℤ)
  let insights : List String :=
    (if 0 < scoreImprovement then [improvedMsg scoreImprovement]
     else if scoreImprovement < 0 then [droppedMsg scoreImprovement.natAbs]
     else [stableMsg]) ++
    (if 0 < wasteReduction then [wastedFewerMsg wasteReduction]
     else if wasteReduction < 0 then [wastedMoreMsg wasteReduction.natAbs]
     else []) ++
    (if prevMetrics.consumedCount < currentMetrics.consumedCount then
      [consumedMoreMsg (currentMetrics.consumedCount - prevMetrics.consumedCount)]
     else [])
  { weeklyChange := scoreImprovement
    wasteReduction := wasteReduction
    insights := insights
    previousScore := prevMetrics.sdgScore
    currentScore := currentMetrics.sdgScore }

structure Recommendation where
  action : String
  description : String
  impact : ℤ
  priority : String
  steps : List String
deriving DecidableEq

structure RecommendationResult where
  recommendations : List Recommendation
  potentialImprovement : ℤ
  estimatedNewScore : ℤ
deriving DecidableEq

/-- `generateActionableRecommendations(sdgMetrics, nutritionMetrics)` of
src/services/analyticsService.js.  Each step yields the candidates it
appends and its contribution to the running `potentialImprovement`; the
`NaN` nutrition score (`none`) fails the `> 15` comparison, as in
JavaScript. -/
def generateActionableRecommendations (sdg : SDGMetrics) (nutrition : NutritionMetrics) :
    RecommendationResult :=
  let wasteReductionPotential : ℚ :=
    min ((sdg.wastedCount : ℚ) * 10) (100 - (sdg.sdgScore : ℚ))
  let step1 : List Recommendation × ℚ :=
    if 0 < wasteReductionPotential then
      ([{ action := "Focus on waste reduction"
          description := "Reduce waste by 25% to boost your score by " ++
            toString (jsRound (wasteReductionPotential * (25/100))) ++ "%"
          impact := jsRound (wasteReductionPotential * (25/100))
          priority := "HIGH"
          steps := ["Check fridge daily for expiring items",
                    "Plan meals with expiring items first",
                    "Use NOURISHBOT\x27s meal suggestions"] }],
       wasteReductionPotential * (25/100))
    else ([], 0)
  let nutritionPotential : Option ℚ := nutrition.nutritionScore.map (fun s => 100 - (s : ℚ))
  let step2 : List Recommendation × ℚ :=
    match nutritionPotential with
    | some np =>
      if 15 < np then
        ([{ action := "Improve nutrition diversity"
            description := nutrition.suggestions.getD 0 "undefined" ++
              " to boost nutrition score by " ++ toString (jsRound (np * (3/10))) ++ "%"
            impact := jsRound (np * (3/10))
            priority := "MEDIUM"
            steps := nutrition.suggestions.take 2 }],
         np * (15/100))
      else ([], 0)
    | none => ([], 0)
  let step3 : List Recommendation × ℚ :=
    if nutrition.categories.vegetables < 2 then
      ([{ action := "Add more vegetables"
          description := "Boost SDG score by 10% with vegetable-based meals"
          impact := 10
          priority := "HIGH"
          steps := ["Try carrot salad", "Make veggie stir-fry", "Add veggies to every meal"] }],
       10)
    else ([], 0)
  let step4 : List Recommendation × ℚ :=
    if nutrition.categories.proteins < 2 then
      ([{ action := "Include more proteins"
          description := "Protein-rich meals reduce waste by 15%"
          impact := 15
          priority := "MEDIUM"
          steps := ["Add eggs to breakfast", "Include beans in lunch",
                    "Choose protein for dinner"] }],
       5)
    else ([], 0)
  let potentialImprovement : ℚ := min (step1.2 + step2.2 + step3.2 + step4.2) 30
  { recommendations := (step1.1 ++ step2.1 ++ step3.1 ++ step4.1).take 3
    potentialImprovement := jsRound potentialImprovement
    estimatedNewScore := min (sdg.sdgScore + jsRound potentialImprovement) 100 }

/-! ## Recipe matching (src/services/mealPlanningService.js) -/

structure Recipe where
  name : String
  ingredients : List String
  time : String
  difficulty : String
  instructions : String
deriving DecidableEq

/-- The static in-source recipe catalog, keyed by lower-cased primary
ingredient; a key the object does not have yields `[]`
(`recipeDatabase[...] || []`). -/
def recipeDatabase : String → List Recipe
  | "yogurt" =>
    [{ name := "Yogurt Parfait", ingredients := ["yogurt", "granola", "berries"],
       time := "5 min", difficulty := "Easy",
       instructions := "Layer yogurt, granola, and berries in a bowl" },
     { name := "Yogurt Smoothie", ingredients := ["yogurt", "banana", "berries", "milk"],
       time := "10 min", difficulty := "Easy",
       instructions := "Blend all ingredients until smooth" },
     { name := "Tzatziki Sauce", ingredients := ["yogurt", "cucumber", "garlic", "dill"],
       time := "15 min", difficulty := "Easy",
       instructions := "Mix yogurt with grated cucumber, garlic, and dill" }]
  | "carrots" =>
    [{ name := "Carrot Stir Fry", ingredients := ["carrots", "oil", "garlic", "soy sauce"],
       time := "15 min", difficulty := "Easy",
       instructions := "Stir fry sliced carrots with garlic and soy sauce" },
     { name := "Carrot Soup", ingredients := ["carrots", "onion", "vegetable broth", "cream"],
       time := "30 min", difficulty := "Medium",
       instructions := "Boil carrots and onion, blend with broth and cream" },
     { name := "Raw Carrot Salad", ingredients := ["carrots", "apple", "lemon juice", "oil"],
       time := "10 min", difficulty := "Easy",
       instructions := "Shred carrots and apples, dress with lemon and oil" }]
  | "rice" =>
    [{ name := "Vegetable Fried Rice",
       ingredients := ["rice", "carrots", "peas", "eggs", "soy sauce"],
       time := "20 min", difficulty := "Easy",
       instructions := "Stir fry cooked rice with vegetables and soy sauce" },
     { name := "Rice Bowl", ingredients := ["rice", "vegetables", "protein", "sauce"],
       time := "25 min", difficulty := "Easy",
       instructions := "Serve rice topped with vegetables and protein" }]
  | "apples" =>
    [{ name := "Apple Crisp", ingredients := ["apples", "oats", "butter", "cinnamon"],
       time := "30 min", difficulty := "Medium",
       instructions := "Bake sliced apples with oat topping" },
     { name := "Apple Smoothie", ingredients := ["apples", "yogurt", "honey"],
       time := "10 min", difficulty := "Easy",
       instructions := "Blend apple with yogurt and honey" }]
  | _ => []

/-- Is some inventory item name (lower-cased) a superstring of the
lower-cased ingredient? -/
def ingredientAvailable (inventoryNames : List String) (ing : String) : Bool :=
  inventoryNames.any (fun inv => strIncludes inv (strLower ing))

/-- The object `scoreRecipeMatch` returns: `recipe` holds the recipe's
name, and the `...recipe` spread copies the catalog fields.  The match
score is `Option ℤ` because `Math.round(0 / 0 * 100)` is `NaN` for a
recipe with no ingredients (never the case in the catalog). -/
structure RecipeMatch where
  recipe : String
  matchScore : Option ℤ
  matchedIngredients : List String
  missingIngredients : List String
  name : String
  ingredients : List String
  time : String
  difficulty : String
  instructions : String
deriving DecidableEq

/-- `scoreRecipeMatch(recipe, userInventory)` of
src/services/mealPlanningService.js. -/
def scoreRecipeMatch (recipe : Recipe) (userInventory : List InventoryItem) : RecipeMatch :=
  let inventoryNames := userInventory.map (fun it => strLower it.name)
  let matched := recipe.ingredients.filter (fun ing => ingredientAvailable inventoryNames ing)
  let matchScore : Option ℤ :=
    if recipe.ingredients.length = 0 then none
    else some (jsRound ((matched.length : ℚ) / (recipe.ingredients.length : ℚ) * 100))
  { recipe := recipe.name
    matchScore := matchScore
    matchedIngredients := matched
    missingIngredients :=
      recipe.ingredients.filter (fun ing => !(ingredientAvailable inventoryNames ing))
    name := recipe.name
    ingredients := recipe.ingredients
    time := recipe.time
    difficulty := recipe.difficulty
    instructions := recipe.instructions }

/-- `calculateUrgency(daysLeft)` of src/services/mealPlanningService.js. -/
def calculateUrgency (daysLeft : ℤ) : ℤ :=
  if daysLeft ≤ 1 then 100
  else if daysLeft ≤ 2 then 80
  else if daysLeft ≤ 3 then 60
  else if daysLeft ≤ 7 then 40
  else 20

structure MealRecommendation extends RecipeMatch where
  urgency : ℤ
  focusItem : String
deriving DecidableEq

structure MealPlanResult where
  totalRecommendations : ℕ
  mealPlan : List MealRecommendation
  summary : String
deriving DecidableEq

/-- The `NaN`-aware `matchScore >= 50` test (`none >= 50` is false). -/
def matchScoreGe50 (ms : Option ℤ) : Bool :=
  match ms with
  | some v => 50 ≤ v
  | none => false

/-- The two-key comparator of `generateMealPlan` as a total `≤`:
urgency descending, then match score descending.  `Array.prototype.sort`
is stable, as is `List.mergeSort`.  (A `NaN` match score never reaches
the sort: every catalog recipe has ingredients.) -/
def mealLE (a b : MealRecommendation) : Bool :=
  decide (b.urgency < a.urgency ∨
    (a.urgency = b.urgency ∧ b.matchScore.getD 0 ≤ a.matchScore.getD 0))

/-- `generateMealPlan(userInventory, preferences)` of
src/services/mealPlanningService.js. -/
def generateMealPlan (userInventory : List InventoryItem)
    (preferences : List String := []) : MealPlanResult :=
  let sortedByExpiry := userInventory.mergeSort (fun a b => decide (a.expiry ≤ b.expiry))
  let recommendedMeals : List MealRecommendation :=
    sortedByExpiry.flatMap (fun it =>
      ((recipeDatabase (strLower it.name)).map
        (fun r => scoreRecipeMatch r userInventory)).filterMap
        (fun scored =>
          if matchScoreGe50 scored.matchScore then
            some { toRecipeMatch := scored, urgency := calculateUrgency it.daysLeft,
                   focusItem := it.name }
          else none))
  let sortedMeals := recommendedMeals.mergeSort mealLE
  let filteredMeals := sortedMeals.filter (fun meal =>
    if preferences.isEmpty then true
    else
      let vegetarian := preferences.contains "Vegetarian"
      let vegan := preferences.contains "Vegan"
      if vegetarian && meal.ingredients.contains "meat" then false
      else if vegan && (meal.ingredients.contains "dairy" ||
                        meal.ingredients.contains "meat") then false
      else true)
  { totalRecommendations := filteredMeals.length
    mealPlan := filteredMeals.take 5
    summary := "Found " ++ toString filteredMeals.length ++
      " recipes to use your expiring items" }

def weekdayNames : List String :=
  ["Monday", "Tuesday", "Wednesday", "Thursday", "Friday", "Saturday", "Sunday"]

structure DayMeal where
  day : String
  meal : String
  time : String
  difficulty : String
  focusItem : String
deriving DecidableEq

structure WeeklyPlanResult where
  weeklyPlan : List DayMeal
  shoppingList : List (String × ℕ)
  totalMeals : ℕ
deriving DecidableEq

/-- The `selectedMeals.map((meal, index) => ...)` loop: the weekday name
at the meal's index (an index past Sunday would read `undefined`,
modelled `""`; it is unreachable because at most 5 meals survive). -/
def assignWeekdays (i : ℕ) : List MealRecommendation → List DayMeal
  | [] => []
  | m :: ms =>
    { day := weekdayNames.getD i "", meal := m.recipe, time := m.time,
      difficulty := m.difficulty, focusItem := m.focusItem } :: assignWeekdays (i + 1) ms

/-- One `shoppingList[ingredient]++ / = 1` update on the insertion-order
association list modelling the JavaScript object. -/
def addIngredientCount (sl : List (String × ℕ)) (ing : String) : List (String × ℕ) :=
  if sl.any (fun p => p.1 == ing) then
    sl.map (fun p => if p.1 == ing then (p.1, p.2 + 1) else p)
  else sl ++ [(ing, 1)]

/-- `generateWeeklyMealPlan(userInventory, mealCount)` of
src/services/mealPlanningService.js (the default `mealCount` is 7). -/
def generateWeeklyMealPlan (userInventory : List InventoryItem)
    (mealCount : ℕ := 7) : WeeklyPlanResult :=
  let mealPlan := generateMealPlan userInventory
  let selectedMeals := mealPlan.mealPlan.take mealCount
  let shoppingList := selectedMeals.foldl
    (fun sl meal => meal.missingIngredients.foldl addIngredientCount sl) []
  { weeklyPlan := assignWeekdays 0 selectedMeals
    shoppingList := shoppingList
    totalMeals := selectedMeals.length }

/-! ## Malformed input semantics of `calculateWasteMetrics`

The error-handling design calls for an `InvalidInputError` on malformed
input.  The source has no validation at all, so this variant embeds what
the JavaScript actually does with such records: a missing or non-numeric
`price` (modelled `none`) makes the sum `NaN`, and an unparsable
`expiry` date (`new Date(...)` = Invalid Date, modelled `none`) makes
`daysLeft` `NaN`, whose comparison is false, so the item is silently
skipped.  The return type has no error channel, exactly like the
source. -/

structure LogEntryJs where
  name : String := ""
  status : String := ""
  price : Option ℚ := none
deriving DecidableEq

structure InventoryItemJs where
  name : String := ""
  price : Option ℚ := none
  quantity : Option ℚ := none
  expiry : Option ℤ := none
deriving DecidableEq

structure RiskItemJs where
  name : String
  daysLeft : ℤ
  riskPrice : Option ℚ
deriving DecidableEq

structure WasteMetricsJs where
  totalWastedMoney : Option ℚ
  riskValue : Option ℚ
  riskItems : List RiskItemJs
  riskItemNames : List String
deriving DecidableEq

/-- `calculateWasteMetrics` over records that may carry malformed
fields, with JavaScript `NaN` semantics. -/
def calculateWasteMetricsJs (history : List LogEntryJs) (inventory : List InventoryItemJs)
    (today : ℤ) : WasteMetricsJs :=
  let totalWastedMoney : Option ℚ :=
    (history.filter (fun e => e.status == "wasted")).foldl
      (fun s e => nanAdd s e.price) (some 0)
  let risk : Option ℚ × List RiskItemJs :=
    inventory.foldl (fun acc it =>
      match it.expiry.map (fun x => (⌈((x - today : ℤ) : ℚ) / 86400000⌉ : ℤ)) with
      | some dl =>
        if dl ≤ 2 ∧ 0 < dl then
          (nanAdd acc.1 (nanMul it.price it.quantity),
           acc.2 ++ [{ name := it.name, daysLeft := dl,
                       riskPrice := nanMul it.price it.quantity }])
        else acc
      | none => acc) (some 0, [])
  { totalWastedMoney := totalWastedMoney.map round2
    riskValue := risk.1.map round2
    riskItems := risk.2
    riskItemNames := risk.2.map (fun r => r.name) }

/-! ## Auxiliary lemmas -/

theorem foldl_add_map {α : Type} (f : α → ℚ) (l : List α) (a : ℚ) :
    l.foldl (fun s x => s + f x) a = a + (l.map f).sum := by
  induction l generalizing a with
  | nil => simp
  | cons x xs ih => simp [ih, add_assoc]

theorem risk_foldl (today : ℤ) (inv : List InventoryItem) (a : ℚ × List RiskItem) :
    (inv.foldl (fun acc it =>
      let dl := daysLeftOf it today
      if dl ≤ 2 ∧ 0 < dl then
        (acc.1 + it.price * it.quantity,
         acc.2 ++ [{ name := itemAltName it.name it.item, daysLeft := dl,
                     riskPrice := it.price * it.quantity }])
      else acc) a)
    = (a.1 + ((inv.filter (fun it =>
          decide (daysLeftOf it today ≤ 2 ∧ 0 < daysLeftOf it today))).map
          (fun it => it.price * it.quantity)).sum,
       a.2 ++ (inv.filter (fun it =>
          decide (daysLeftOf it today ≤ 2 ∧ 0 < daysLeftOf it today))).map
          (fun it => ({ name := itemAltName it.name it.item, daysLeft := daysLeftOf it today,
                        riskPrice := it.price * it.quantity } : RiskItem))) := by
  induction inv generalizing a with
  | nil => simp
  | cons x xs ih =>
    by_cases h : daysLeftOf x today ≤ 2 ∧ 0 < daysLeftOf x today
    · simp [h, ih, add_assoc]
    · simp [h, ih]

theorem sdg_wastedCount (l : List LogEntry) :
    (calculateSDGScore l).wastedCount = (l.filter (fun e => e.status == "wasted")).length := by
  unfold calculateSDGScore
  split_ifs with h
  · rw [List.isEmpty_iff] at h
    subst h
    rfl
  · rfl

theorem sdg_consumedCount (l : List LogEntry) :
    (calculateSDGScore l).consumedCount =
      (l.filter (fun e => e.status == "consumed")).length := by
  unfold calculateSDGScore
  split_ifs with h
  · rw [List.isEmpty_iff] at h
    subst h
    rfl
  · rfl

theorem wasteTrendLine (wr : ℤ) (A B : List String) :
    (if 0 < wr then A else if wr < 0 then B else []) =
      (if wr ≠ 0 then if 0 < wr then A else B else []) := by
  rcases lt_trichotomy wr 0 with h | h | h
  · simp [h, not_lt.2 (le_of_lt h), ne_of_lt h]
  · simp [h]
  · simp [h, ne_of_gt h]

theorem ceil_div_five (n : ℕ) : (⌈(n : ℚ) / 5⌉ : ℤ) = ((n + 4) / 5 : ℕ) := by
  have h1 : ((n : ℚ)) / 5 = -(((-(n : ℤ) : ℤ) : ℚ) / ((5 : ℕ) : ℚ)) := by push_cast; ring
  rw [h1, Int.ceil_neg, Rat.floor_intCast_div_natCast]
  omega

theorem classify_foldl (l : List LogEntry) (c : NutritionCategories) :
    l.foldl classifyStep c =
      { fruits := c.fruits + l.countP (fun e => matchesKeyword fruitKeywords e)
        vegetables := c.vegetables + l.countP (fun e =>
          matchesKeyword vegKeywords e && !matchesKeyword fruitKeywords e)
        proteins := c.proteins + l.countP (fun e =>
          matchesKeyword proteinKeywords e && !matchesKeyword vegKeywords e &&
          !matchesKeyword fruitKeywords e)
        grains := c.grains + l.countP (fun e =>
          matchesKeyword grainKeywords e && !matchesKeyword proteinKeywords e &&
          !matchesKeyword vegKeywords e && !matchesKeyword fruitKeywords e)
        dairy := c.dairy + l.countP (fun e =>
          matchesKeyword dairyKeywords e && !matchesKeyword grainKeywords e &&
          !matchesKeyword proteinKeywords e && !matchesKeyword vegKeywords e &&
          !matchesKeyword fruitKeywords e) } := by
  induction l generalizing c with
  | nil => simp
  | cons e t ih =>
    rw [List.foldl_cons, ih]
    by_cases hf : matchesKeyword fruitKeywords e
    · simp [classifyStep, hf, List.countP_cons, NutritionCategories.mk.injEq]
      omega
    · by_cases hv : matchesKeyword vegKeywords e
      · simp [classifyStep, hf, hv, List.countP_cons, NutritionCategories.mk.injEq]
        omega
      · by_cases hp : matchesKeyword proteinKeywords e
        · simp [classifyStep, hf, hv, hp, List.countP_cons, NutritionCategories.mk.injEq]
          omega
        · by_cases hg : matchesKeyword grainKeywords e
          · simp [classifyStep, hf, hv, hp, hg, List.countP_cons,
              NutritionCategories.mk.injEq]
            omega
          · by_cases hd : matchesKeyword dairyKeywords e
            · simp [classifyStep, hf, hv, hp, hg, hd, List.countP_cons,
                NutritionCategories.mk.injEq]
              omega
            · simp [classifyStep, hf, hv, hp, hg, hd, List.countP_cons,
                NutritionCategories.mk.injEq]

theorem nutrition_main (history : List LogEntry)
    (h : history.filter (fun e => e.status == "consumed") ≠ []) :
    (calculateNutritionScore history).categories =
      { fruits := (history.filter (fun e => e.status == "consumed")).countP
          (fun e => matchesKeyword fruitKeywords e)
        vegetables := (history.filter (fun e => e.status == "consumed")).countP
          (fun e => matchesKeyword vegKeywords e && !matchesKeyword fruitKeywords e)
        proteins := (history.filter (fun e => e.status == "consumed")).countP
          (fun e => matchesKeyword proteinKeywords e && !matchesKeyword vegKeywords e &&
            !matchesKeyword fruitKeywords e)
        grains := (history.filter (fun e => e.status == "consumed")).countP
          (fun e => matchesKeyword grainKeywords e && !matchesKeyword proteinKeywords e &&
            !matchesKeyword vegKeywords e && !matchesKeyword fruitKeywords e)
        dairy := (history.filter (fun e => e.status == "consumed")).countP
          (fun e => matchesKeyword dairyKeywords e && !matchesKeyword grainKeywords e &&
            !matchesKeyword proteinKeywords e && !matchesKeyword vegKeywords e &&
            !matchesKeyword fruitKeywords e) } ∧
    (calculateNutritionScore history).totalConsumed =
      (history.filter (fun e => e.status == "consumed")).length ∧
    (calculateNutritionScore history).nutritionScore =
      some (jsRound
        ((min (((calculateNutritionScore history).categories.fruits : ℚ) /
            ((((history.filter (fun e => e.status == "consumed")).length + 4) / 5 : ℕ) : ℚ)
            * 100) 100 +
          min (((calculateNutritionScore history).categories.vegetables : ℚ) /
            ((((history.filter (fun e => e.status == "consumed")).length + 4) / 5 : ℕ) : ℚ)
            * 100) 100 +
          min (((calculateNutritionScore history).categories.proteins : ℚ) /
            ((((history.filter (fun e => e.status == "consumed")).length + 4) / 5 : ℕ) : ℚ)
            * 100) 100 +
          min (((calculateNutritionScore history).categories.grains : ℚ) /
            ((((history.filter (fun e => e.status == "consumed")).length + 4) / 5 : ℕ) : ℚ)
            * 100) 100 +
          min (((calculateNutritionScore history).categories.dairy : ℚ) /
            ((((history.filter (fun e => e.status == "consumed")).length + 4) / 5 : ℕ) : ℚ)
            * 100) 100) / 5)) := by
  have hne : ¬ history.isEmpty := by
    rw [List.isEmpty_iff]
    rintro rfl
    exact h rfl
  have hlen : (history.filter (fun e => e.status == "consumed")).length ≠ 0 := by
    simpa [List.length_eq_zero] using h
  have hmpc : ((history.filter (fun e => e.status == "consumed")).length + 4) / 5 ≠ 0 := by
    omega
  refine ⟨?_, ?_, ?_⟩
  · unfold calculateNutritionScore
    simp [hne, classify_foldl]
  · unfold calculateNutritionScore
    simp [hne]
  · unfold calculateNutritionScore
    simp only [hne, if_false, Bool.false_eq_true, classify_foldl, Nat.zero_add,
      categoryScore, hmpc, List.foldl_cons, List.foldl_nil, Option.map_some', nanAdd]
    congr 1
    ring_nf

theorem assignWeekdays_length (ms : List MealRecommendation) :
    ∀ i, (assignWeekdays i ms).length = ms.length := by
  induction ms with
  | nil => intro i; rfl
  | cons m t ih => intro i; simp [assignWeekdays, ih]

theorem assignWeekdays_days (ms : List MealRecommendation) :
    ∀ i, i + ms.length ≤ 7 →
      (assignWeekdays i ms).map (fun d => d.day) = (weekdayNames.drop i).take ms.length := by
  induction ms with
  | nil => intro i _; simp [assignWeekdays]
  | cons m t ih =>
    intro i hi
    have hi7 : i < 7 := by simp at hi; omega
    have hlen : i < weekdayNames.length := by simp [weekdayNames]; omega
    rw [List.drop_eq_getElem_cons hlen]
    simp only [assignWeekdays, List.map_cons, List.length_cons, List.take_succ_cons]
    rw [ih (i + 1) (by simp at hi ⊢; omega), List.getD_eq_getElem weekdayNames "" hlen]

/-- The recipe of the spec's Scenario D. -/
def scenarioDRecipe : Recipe :=
  { name := "Test", ingredients := ["rice", "peas", "egg"], time := "", difficulty := "",
    instructions := "" }

/-- The inventory of the spec's Scenario D. -/
def scenarioDInventory : List InventoryItem := [{ name := "rice" }, { name := "eggs" }]

/-- The history of the spec's Scenario E: 5 consumed items, one per category. -/
def scenarioEHistory : List LogEntry :=
  [{ name := "apple", status := "consumed" }, { name := "carrot", status := "consumed" },
   { name := "egg", status := "consumed" }, { name := "bread", status := "consumed" },
   { name := "milk", status := "consumed" }]

/-! ## The claims -/

/-- Claim C1 (code bug): the spec says every score lies in [0, 100], but
on a non-empty history with no consumed entry `calculateNutritionScore`
computes `maxPerCategory = 0` and `0 / 0 = NaN` (modelled `none`), which
`Math.min` and `Math.round` propagate: the returned nutrition score is
`NaN`, not a number in [0, 100]. -/
theorem nutritionScore_nan_on_no_consumed :
    (calculateNutritionScore [{ name := "bread", status := "wasted", price := 1 }]).nutritionScore
      = none := by
  rfl

/-- Claim C2: `calculateSDGScore` returns the 50-baseline record on an
empty history; on a non-empty history `successRate` is
`round(consumedCount / totalItems * 100)`, `sdgScore = successRate`, and
the counts are the `wasted` and `consumed` filter counts; a 6-entry log
with 3 wasted and 3 consumed scores 50/50. -/
theorem calculateSDGScore_spec (history : List LogEntry) :
    calculateSDGScore [] =
      { sdgScore := 50, successRate := 0, wastedCount := 0, consumedCount := 0,
        totalItems := 0 } ∧
    (history ≠ [] →
      (calculateSDGScore history).successRate =
        jsRound (((history.filter (fun e => e.status == "consumed")).length : ℚ) /
          (history.length : ℚ) * 100) ∧
      (calculateSDGScore history).sdgScore = (calculateSDGScore history).successRate ∧
      (calculateSDGScore history).wastedCount =
        (history.filter (fun e => e.status == "wasted")).length ∧
      (calculateSDGScore history).consumedCount =
        (history.filter (fun e => e.status == "consumed")).length ∧
      (calculateSDGScore history).totalItems = history.length) ∧
    (calculateSDGScore
      [{ status := "wasted" }, { status := "wasted" }, { status := "wasted" },
       { status := "consumed" }, { status := "consumed" }, { status := "consumed" }]).sdgScore
      = 50 ∧
    (calculateSDGScore
      [{ status := "wasted" }, { status := "wasted" }, { status := "wasted" },
       { status := "consumed" }, { status := "consumed" }, { status := "consumed" }]).successRate
      = 50 := by
  refine ⟨rfl, ?_, ?_, ?_⟩
  · intro h
    have hne : ¬ history.isEmpty := by simpa [List.isEmpty_iff] using h
    simp [calculateSDGScore, hne]
  · show (calculateSDGScore _).sdgScore = 50
    simp [calculateSDGScore]
    norm_num [jsRound]
  · show (calculateSDGScore _).successRate = 50
    simp [calculateSDGScore]
    norm_num [jsRound]

/-- Claim C3: `calculateWasteMetrics` returns the historical waste as
the sum of `price` (quantity not multiplied in) over `wasted` entries,
the risk value as the sum of `price * quantity` over exactly the
inventory items with `0 < daysLeft ≤ 2` where
`daysLeft = ceil((expiry - referenceDate) / 1 day)`, each such item
appearing as a `RiskItem`, and both monetary outputs rounded to 2
decimal places. -/
theorem calculateWasteMetrics_spec (history : List LogEntry) (inventory : List InventoryItem)
    (today : ℤ) :
    (calculateWasteMetrics history inventory today).totalWastedMoney =
      round2 (((history.filter (fun e => e.status == "wasted")).map (fun e => e.price)).sum) ∧
    (calculateWasteMetrics history inventory today).riskValue =
      round2 (((inventory.filter (fun it =>
        decide (0 < daysLeftOf it today ∧ daysLeftOf it today ≤ 2))).map
        (fun it => it.price * it.quantity)).sum) ∧
    (calculateWasteMetrics history inventory today).riskItems =
      (inventory.filter (fun it =>
        decide (0 < daysLeftOf it today ∧ daysLeftOf it today ≤ 2))).map
        (fun it => ({ name := itemAltName it.name it.item, daysLeft := daysLeftOf it today,
                      riskPrice := it.price * it.quantity } : RiskItem)) := by
  have hfilter : inventory.filter (fun it =>
        decide (0 < daysLeftOf it today ∧ daysLeftOf it today ≤ 2)) =
      inventory.filter (fun it =>
        decide (daysLeftOf it today ≤ 2 ∧ 0 < daysLeftOf it today)) :=
    List.filter_congr (fun it _ => by simp [decide_eq_decide, and_comm])
  unfold calculateWasteMetrics
  rw [hfilter]
  simp [risk_foldl, foldl_add_map]

/-- Claim C4: `calculateNutritionScore` classifies each consumed entry
into the first matching of the five keyword categories in the order
fruits, vegetables, proteins, grains, dairy (unmatched names in no
category), uses `maxPerCategory = ceil(consumedCount / 5)` and
`categoryScore = min(count / maxPerCategory * 100, 100)`, and returns
`round(sum of the five category scores / 5)`; on 5 consumed items, one
per category, the score is 100 and the suggestions are exactly the one
positive-reinforcement message. -/
theorem calculateNutritionScore_spec (history : List LogEntry) :
    (history.filter (fun e => e.status == "consumed") ≠ [] →
      (calculateNutritionScore history).categories =
        { fruits := (history.filter (fun e => e.status == "consumed")).countP
            (fun e => matchesKeyword fruitKeywords e)
          vegetables := (history.filter (fun e => e.status == "consumed")).countP
            (fun e => matchesKeyword vegKeywords e && !matchesKeyword fruitKeywords e)
          proteins := (history.filter (fun e => e.status == "consumed")).countP
            (fun e => matchesKeyword proteinKeywords e && !matchesKeyword vegKeywords e &&
              !matchesKeyword fruitKeywords e)
          grains := (history.filter (fun e => e.status == "consumed")).countP
            (fun e => matchesKeyword grainKeywords e && !matchesKeyword proteinKeywords e &&
              !matchesKeyword vegKeywords e && !matchesKeyword fruitKeywords e)
          dairy := (history.filter (fun e => e.status == "consumed")).countP
            (fun e => matchesKeyword dairyKeywords e && !matchesKeyword grainKeywords e &&
              !matchesKeyword proteinKeywords e && !matchesKeyword vegKeywords e &&
              !matchesKeyword fruitKeywords e) } ∧
      (calculateNutritionScore history).nutritionScore =
        some (jsRound
          ((min (((calculateNutritionScore history).categories.fruits : ℚ) /
              ((⌈((history.filter (fun e => e.status == "consumed")).length : ℚ) / 5⌉ : ℤ) : ℚ)
              * 100) 100 +
            min (((calculateNutritionScore history).categories.vegetables : ℚ) /
              ((⌈((history.filter (fun e => e.status == "consumed")).length : ℚ) / 5⌉ : ℤ) : ℚ)
              * 100) 100 +
            min (((calculateNutritionScore history).categories.proteins : ℚ) /
              ((⌈((history.filter (fun e => e.status == "consumed")).length : ℚ) / 5⌉ : ℤ) : ℚ)
              * 100) 100 +
            min (((calculateNutritionScore history).categories.grains : ℚ) /
              ((⌈((history.filter (fun e => e.status == "consumed")).length : ℚ) / 5⌉ : ℤ) : ℚ)
              * 100) 100 +
            min (((calculateNutritionScore history).categories.dairy : ℚ) /
              ((⌈((history.filter (fun e => e.status == "consumed")).length : ℚ) / 5⌉ : ℤ) : ℚ)
              * 100) 100) / 5))) ∧
    (calculateNutritionScore scenarioEHistory).categories = ⟨1, 1, 1, 1, 1⟩ ∧
    (calculateNutritionScore scenarioEHistory).nutritionScore = some 100 ∧
    (calculateNutritionScore scenarioEHistory).suggestions = ["Great variety! Keep it up!"] := by
  have hex1 : scenarioEHistory.filter (fun e => e.status == "consumed") = scenarioEHistory := by
    decide
  have hex2 : scenarioEHistory.foldl classifyStep ⟨0, 0, 0, 0, 0⟩ = ⟨1, 1, 1, 1, 1⟩ := by
    decide
  have hlen5 : scenarioEHistory.length = 5 := rfl
  have hrec : calculateNutritionScore scenarioEHistory =
      { nutritionScore := some 100, categories := ⟨1, 1, 1, 1, 1⟩, totalConsumed := 5,
        suggestions := ["Great variety! Keep it up!"] } := by
    unfold calculateNutritionScore
    rw [if_neg (by decide)]
    simp only [hex1, hex2, hlen5]
    norm_num [categoryScore, nanAdd, jsRound, NutritionMetrics.mk.injEq]
  refine ⟨?_, ?_, ?_, ?_⟩
  · intro h
    obtain ⟨h1, _, h3⟩ := nutrition_main history h
    refine ⟨h1, ?_⟩
    rw [h3, ceil_div_five]
    simp only [Int.cast_natCast]
  · rw [hrec]
  · rw [hrec]
  · rw [hrec]

/-- Claim C5: `generateActionableRecommendations` returns at most 3
recommendations — the first 3 generated candidates in generation order —
a `potentialImprovement` equal to the rounded running total of partial
impacts capped at 30, and
`estimatedNewScore = min(sdgScore + round(potentialImprovement), 100)`,
hence always at most 100. -/
theorem generateActionableRecommendations_spec (sdg : SDGMetrics)
    (nutrition : NutritionMetrics) :
    (generateActionableRecommendations sdg nutrition).recommendations.length ≤ 3 ∧
    (generateActionableRecommendations sdg nutrition).recommendations.map
        (fun r => r.action) =
      ((if 0 < min ((sdg.wastedCount : ℚ) * 10) (100 - (sdg.sdgScore : ℚ)) then
          ["Focus on waste reduction"] else []) ++
       (match nutrition.nutritionScore with
        | some s => if (15 : ℚ) < 100 - (s : ℚ) then ["Improve nutrition diversity"] else []
        | none => []) ++
       (if nutrition.categories.vegetables < 2 then ["Add more vegetables"] else []) ++
       (if nutrition.categories.proteins < 2 then ["Include more proteins"] else [])).take 3 ∧
    (generateActionableRecommendations sdg nutrition).potentialImprovement =
      jsRound (min
        ((if 0 < min ((sdg.wastedCount : ℚ) * 10) (100 - (sdg.sdgScore : ℚ)) then
            min ((sdg.wastedCount : ℚ) * 10) (100 - (sdg.sdgScore : ℚ)) * (25/100) else 0) +
         (match nutrition.nutritionScore with
          | some s => if (15 : ℚ) < 100 - (s : ℚ) then (100 - (s : ℚ)) * (15/100) else 0
          | none => 0) +
         (if nutrition.categories.vegetables < 2 then 10 else 0) +
         (if nutrition.categories.proteins < 2 then (5 : ℚ) else 0)) 30) ∧
    (generateActionableRecommendations sdg nutrition).estimatedNewScore =
      min (sdg.sdgScore +
        (generateActionableRecommendations sdg nutrition).potentialImprovement) 100 ∧
    (generateActionableRecommendations sdg nutrition).estimatedNewScore ≤ 100 := by
  refine ⟨?_, ?_, ?_, rfl, min_le_right _ _⟩
  · simp [generateActionableRecommendations, List.length_take]
  · cases hns : nutrition.nutritionScore with
    | none =>
      simp only [generateActionableRecommendations, hns]
      split_ifs <;> simp [*]
    | some s =>
      simp only [generateActionableRecommendations, hns]
      split_ifs <;> simp [*]
  · cases hns : nutrition.nutritionScore with
    | none =>
      simp only [generateActionableRecommendations, hns]
      split_ifs <;> simp [*]
    | some s =>
      simp only [generateActionableRecommendations, hns]
      have : ((100 : ℚ) - (s : ℚ)) * (15/100) = (100 - (s : ℚ)) * (3/20) := by ring
      split_ifs <;> simp [*]

/-- Claim C6: `generateWeeklyInsights` takes the first
`ceil(length / 2)` entries of the history as the baseline period,
returns `weeklyChange = currentScore - baselineScore` and
`wasteReduction = baseline wastedCount - current wastedCount`, and its
insights are: a score-trend line always, a waste-trend line exactly
when `wasteReduction ≠ 0`, and a consumption-increase line exactly when
the current consumed count exceeds the baseline's. -/
theorem generateWeeklyInsights_spec (history : List LogEntry) (m : SDGMetrics) :
    (generateWeeklyInsights history m).weeklyChange =
      m.sdgScore - (calculateSDGScore (history.take ((history.length + 1) / 2))).sdgScore ∧
    (generateWeeklyInsights history m).wasteReduction =
      ((calculateSDGScore (history.take ((history.length + 1) / 2))).wastedCount : ℤ) -
        (m.wastedCount : ℤ) ∧
    (generateWeeklyInsights history m).previousScore =
      (calculateSDGScore (history.take ((history.length + 1) / 2))).sdgScore ∧
    (generateWeeklyInsights history m).currentScore = m.sdgScore ∧
    (generateWeeklyInsights history m).insights =
      (if 0 < (generateWeeklyInsights history m).weeklyChange then
        [improvedMsg (generateWeeklyInsights history m).weeklyChange]
       else if (generateWeeklyInsights history m).weeklyChange < 0 then
        [droppedMsg (generateWeeklyInsights history m).weeklyChange.natAbs]
       else [stableMsg]) ++
      (if (generateWeeklyInsights history m).wasteReduction ≠ 0 then
        (if 0 < (generateWeeklyInsights history m).wasteReduction then
          [wastedFewerMsg (generateWeeklyInsights history m).wasteReduction]
         else [wastedMoreMsg (generateWeeklyInsights history m).wasteReduction.natAbs])
       else []) ++
      (if (calculateSDGScore (history.take ((history.length + 1) / 2))).consumedCount
            < m.consumedCount then
        [consumedMoreMsg (m.consumedCount -
          (calculateSDGScore (history.take ((history.length + 1) / 2))).consumedCount)]
       else []) := by
  refine ⟨rfl, ?_, rfl, rfl, ?_⟩
  · show ((List.filter _ _).length : ℤ) - _ = _
    rw [← sdg_wastedCount]
  · show _ ++ (if 0 < _ then _ else if _ < 0 then _ else []) ++ _ = _
    rw [wasteTrendLine]
    have hw : ((history.take ((history.length + 1) / 2)).filter
        (fun e => e.status == "wasted")).length =
        (calculateSDGScore (history.take ((history.length + 1) / 2))).wastedCount :=
      (sdg_wastedCount _).symm
    simp only [generateWeeklyInsights, hw]

/-- Claim C7: `scoreRecipeMatch` puts a recipe ingredient in
`matchedIngredients` exactly when some inventory name case-insensitively
contains it as a substring and in `missingIngredients` otherwise (a
partition with no overlap), and returns
`matchScore = round(matchedCount / totalIngredients * 100)`; Scenario D
gives score 67 and missing `["peas"]`. -/
theorem scoreRecipeMatch_spec (recipe : Recipe) (inventory : List InventoryItem) :
    (∀ ing : String, ing ∈ (scoreRecipeMatch recipe inventory).matchedIngredients ↔
      ing ∈ recipe.ingredients ∧
        ∃ it ∈ inventory, strIncludes (strLower it.name) (strLower ing) = true) ∧
    (∀ ing : String, ing ∈ (scoreRecipeMatch recipe inventory).missingIngredients ↔
      ing ∈ recipe.ingredients ∧
        ¬ ∃ it ∈ inventory, strIncludes (strLower it.name) (strLower ing) = true) ∧
    (∀ ing : String, ¬ (ing ∈ (scoreRecipeMatch recipe inventory).matchedIngredients ∧
      ing ∈ (scoreRecipeMatch recipe inventory).missingIngredients)) ∧
    (scoreRecipeMatch recipe inventory).matchedIngredients.length +
      (scoreRecipeMatch recipe inventory).missingIngredients.length =
      recipe.ingredients.length ∧
    (scoreRecipeMatch recipe inventory).matchScore =
      (if recipe.ingredients.length = 0 then none
       else some (jsRound
        (((scoreRecipeMatch recipe inventory).matchedIngredients.length : ℚ) /
          (recipe.ingredients.length : ℚ) * 100))) ∧
    (scoreRecipeMatch scenarioDRecipe scenarioDInventory).matchScore = some 67 ∧
    (scoreRecipeMatch scenarioDRecipe scenarioDInventory).missingIngredients = ["peas"] := by
  refine ⟨?_, ?_, ?_, ?_, rfl, ?_, by decide⟩
  · intro ing
    simp [scoreRecipeMatch, ingredientAvailable, List.mem_filter, List.any_eq_true]
  · intro ing
    simp [scoreRecipeMatch, ingredientAvailable, List.mem_filter, List.any_eq_true]
  · intro ing
    simp [scoreRecipeMatch, ingredientAvailable, List.mem_filter, List.any_eq_true]
    tauto
  · simp only [scoreRecipeMatch]
    exact (List.length_eq_length_filter_add _).symm
  · have h1 : (scoreRecipeMatch scenarioDRecipe scenarioDInventory).matchedIngredients =
        ["rice", "egg"] := by decide
    have h2 : (scoreRecipeMatch scenarioDRecipe scenarioDInventory).matchScore =
        some (jsRound ((2 : ℚ) / 3 * 100)) := by
      rw [show (2 : ℚ) = (([("rice" : String), "egg"].length : ℕ) : ℚ) by norm_num, ← h1]
      rfl
    rw [h2]
    norm_num [jsRound]

/-- Claim C8: `calculateUrgency` is total over the integers with value
in {100, 80, 60, 40, 20}: at most 1 day left (including zero and
negative) maps to 100, then 80, 60, 40 at the 2-, 3- and 7-day
thresholds in order, 20 beyond; it is monotonically non-increasing. -/
theorem calculateUrgency_spec (d : ℤ) :
    (calculateUrgency d = 100 ∨ calculateUrgency d = 80 ∨ calculateUrgency d = 60 ∨
      calculateUrgency d = 40 ∨ calculateUrgency d = 20) ∧
    (d ≤ 1 → calculateUrgency d = 100) ∧
    (1 < d ∧ d ≤ 2 → calculateUrgency d = 80) ∧
    (2 < d ∧ d ≤ 3 → calculateUrgency d = 60) ∧
    (3 < d ∧ d ≤ 7 → calculateUrgency d = 40) ∧
    (7 < d → calculateUrgency d = 20) ∧
    (∀ e : ℤ, d ≤ e → calculateUrgency e ≤ calculateUrgency d) := by
  unfold calculateUrgency
  refine ⟨?_, ?_, ?_, ?_, ?_, ?_, ?_⟩
  · split_ifs
    all_goals omega
  · intro h
    split_ifs
    all_goals omega
  · intro h
    split_ifs
    all_goals omega
  · intro h
    split_ifs
    all_goals omega
  · intro h
    split_ifs
    all_goals omega
  · intro h
    split_ifs
    all_goals omega
  · intro e he
    split_ifs
    all_goals omega

/-- Claim C9 (code bug): the spec requires malformed input to surface a
distinct `InvalidInputError`; the source has no validation and no error
path at all.  Evaluated at a `wasted` entry with a missing price and an
inventory item with an unparsable expiry date, `calculateWasteMetrics`
silently returns `NaN` (`none`) as the money total and silently skips
the item instead of raising anything. -/
theorem calculateWasteMetricsJs_silent_coercion :
    calculateWasteMetricsJs [{ name := "milk", status := "wasted", price := none }]
      [{ name := "egg", price := some 1, quantity := some 1, expiry := none }] 0 =
    { totalWastedMoney := none, riskValue := some 0, riskItems := [],
      riskItemNames := [] } := by
  have h0 : round2 0 = 0 := by norm_num [round2, jsRound]
  simp [calculateWasteMetricsJs, nanAdd, h0]

/-- Claim C10: `generateWeeklyMealPlan` never returns more than 5 meals
for any inventory and meal count (including the default 7), because
`generateMealPlan` truncates to 5 before the weekly selection; the
weekday names are assigned Monday-first in order, so the default weekly
plan can never cover all 7 weekdays. -/
theorem generateWeeklyMealPlan_spec (inventory : List InventoryItem) (mealCount : ℕ) :
    (generateWeeklyMealPlan inventory mealCount).totalMeals ≤ 5 ∧
    (generateWeeklyMealPlan inventory mealCount).weeklyPlan.length =
      (generateWeeklyMealPlan inventory mealCount).totalMeals ∧
    (generateWeeklyMealPlan inventory mealCount).weeklyPlan.map (fun d => d.day) =
      weekdayNames.take (generateWeeklyMealPlan inventory mealCount).totalMeals ∧
    (generateWeeklyMealPlan inventory mealCount).totalMeals < 7 := by
  have h5 : (generateMealPlan inventory).mealPlan.length ≤ 5 := by
    unfold generateMealPlan
    simp [List.length_take]
  have hsel : ((generateMealPlan inventory).mealPlan.take mealCount).length ≤ 5 := by
    rw [List.length_take]
    exact le_trans (min_le_right _ _) h5
  have hdays := assignWeekdays_days ((generateMealPlan inventory).mealPlan.take mealCount) 0
    (by omega)
  simp only [List.drop_zero] at hdays
  refine ⟨?_, ?_, ?_, ?_⟩ <;> simp only [generateWeeklyMealPlan]
  · exact hsel
  · exact assignWeekdays_length _ 0
  · rw [hdays]
  · have := assignWeekdays_length ((generateMealPlan inventory).mealPlan.take mealCount) 0
    omega
